import Mathlib

/-!
Shallow embedding of `tools/json_converter.py`, a 20-line utility that reads a
JSON file, interprets it as a list of records, and prints each record's first
two elements as a semicolon-separated row after a fixed header line.

The embedding models:
  * scalar JSON values as parsed by `json.load` (strings, integers, booleans,
    null), together with Python's `str()` rendering used by the f-string;
  * the per-record row construction (`r[0]`, `r[1]`, `f"{article};{resistance}"`),
    where indexing a record shorter than two elements raises `IndexError`;
  * the emission loop over the parsed array, which stops at the first short
    record without printing a partial row;
  * the surrounding control flow: open/parse failures propagate uncaught,
    the loop ending normally reaches `sys.exit(0)` inside the `with` block,
    and the trailing `sys.exit(-1)` runs only if the `with` block falls
    through without exiting or raising.
-/

namespace JsonConverter

/-- A scalar JSON value as produced by `json.load`.  The claims under
verification only concern scalar record elements (strings, numbers,
booleans, null), so compound values are not modelled. -/
inductive JVal
  | jstr (s : String)
  | jint (n : Int)
  | jbool (b : Bool)
  | jnull
deriving DecidableEq, Repr

/-- Python `str()` of a parsed scalar value, as applied by the f-string on
line 17 of the source: strings render as their own characters with no added
quoting or escaping, integers in decimal, `True`/`False`/`None` by name. -/
def render : JVal → String
  | .jstr s => s
  | .jint n => toString n
  | .jbool true => "True"
  | .jbool false => "False"
  | .jnull => "None"

/-- One iteration of the loop body (lines 14-17):
`article = r[0]; resistance = r[1]; print(f"{article};{resistance}")`.
`none` models the `IndexError` raised when the record has fewer than two
elements; only the first two elements are ever inspected. -/
def rowOf : List JVal → Option String
  | a :: b :: _ => some (render a ++ ";" ++ render b)
  | _ => none

/-- The `for r in data` loop (lines 13-17): the list of lines printed, paired
with `true` when the loop ran to completion and `false` when an `IndexError`
aborted it at the first short record (printing no partial row for it). -/
def emitRows : List (List JVal) → List String × Bool
  | [] => ([], true)
  | r :: rs =>
    match rowOf r with
    | some line => ((line :: (emitRows rs).1), (emitRows rs).2)
    | none => ([], false)

/-- The exception classes the script can let escape. -/
inductive PyError
  | indexError
  | ioError
  | jsonDecodeError
deriving DecidableEq, Repr

/-- How the process terminates: a deliberate `sys.exit` with a requested
code, or an uncaught exception. -/
inductive Outcome
  | exited (code : Int)
  | uncaught (e : PyError)
deriving DecidableEq, Repr

/-- The process exit status the operating system observes: `sys.exit(c)`
yields `c` modulo 256, and CPython terminates with status 1 on an uncaught
exception. -/
def statusOf : Outcome → Int
  | .exited c => c % 256
  | .uncaught _ => 1

/-- Result of `open(...)` followed by `json.load(file)` (lines 9-10):
either the parsed array of records, a failure to open the file, or a JSON
parse failure. -/
inductive LoadResult
  | ok (data : List (List JVal))
  | ioError
  | parseError
deriving DecidableEq, Repr

/-- What the `with` block signals to the surrounding code: a `SystemExit`
carrying a requested code, an uncaught exception, or normal fall-through
past the end of the block. -/
inductive BlockSignal
  | exitSignal (code : Int)
  | raised (e : PyError)
  | fellThrough
deriving DecidableEq, Repr

/-- The `with` block (lines 9-19): on a load failure nothing is printed and
the exception propagates; otherwise the header is printed, the loop runs,
and if it completes `sys.exit(0)` on line 19 is reached, else the
`IndexError` propagates. -/
def withBlock : LoadResult → List String × BlockSignal
  | .ioError => ([], .raised .ioError)
  | .parseError => ([], .raised .jsonDecodeError)
  | .ok data =>
      ("article;resistance" :: (emitRows data).1,
       if (emitRows data).2 then .exitSignal 0 else .raised .indexError)

/-- The whole `__main__` body: run the `with` block; a `SystemExit` or an
uncaught exception terminates the process, and only if the block falls
through does control reach the `sys.exit(-1)` on line 20.  Returns the
lines written to standard output and the termination outcome. -/
def mainRun (load : LoadResult) : List String × Outcome :=
  ((withBlock load).1,
   match (withBlock load).2 with
   | .exitSignal c => .exited c
   | .raised e => .uncaught e
   | .fellThrough => .exited (-1))

/-- A record shorter than two elements raises `IndexError` at `r[1]` (or
`r[0]`). -/
theorem rowOf_of_short (r : List JVal) (h : r.length < 2) : rowOf r = none := by
  match r with
  | [] => rfl
  | [_] => rfl
  | _ :: _ :: _ => simp at h; omega

/-- When every record has at least two elements the loop prints one row per
record, in order, and completes. -/
theorem emitRows_all_good (data : List (List JVal)) :
    (∀ r ∈ data, 2 ≤ r.length) →
    emitRows data = (data.map (fun r => (rowOf r).getD ""), true) := by
  induction data with
  | nil => intro _; rfl
  | cons r rs ih =>
    intro h
    cases r with
    | nil => have := h [] (by simp); simp at this
    | cons a t =>
      cases t with
      | nil => have := h [a] (by simp); simp at this
      | cons b t2 =>
        have hrs : ∀ x ∈ rs, 2 ≤ x.length := fun x hx => h x (by simp [hx])
        simp [emitRows, rowOf, ih hrs]

/-- The loop stops at the first short record: the rows for the well-formed
prefix are printed, nothing after, and the loop reports failure. -/
theorem emitRows_stops_at_bad (pre : List (List JVal)) (bad : List JVal)
    (rest : List (List JVal)) (hbad : bad.length < 2) :
    (∀ r ∈ pre, 2 ≤ r.length) →
    emitRows (pre ++ bad :: rest)
      = (pre.map (fun r => (rowOf r).getD ""), false) := by
  induction pre with
  | nil => intro _; simp [emitRows, rowOf_of_short bad hbad]
  | cons r rs ih =>
    intro h
    cases r with
    | nil => have := h [] (by simp); simp at this
    | cons a t =>
      cases t with
      | nil => have := h [a] (by simp); simp at this
      | cons b t2 =>
        have hrs : ∀ x ∈ rs, 2 ≤ x.length := fun x hx => h x (by simp [hx])
        simp [emitRows, rowOf, ih hrs]

/-- If any record of the array is shorter than two elements, the loop does
not complete. -/
theorem emitRows_fails_of_bad (data : List (List JVal)) :
    (∃ r ∈ data, r.length < 2) → (emitRows data).2 = false := by
  induction data with
  | nil => rintro ⟨r, hr, _⟩; cases hr
  | cons r rs ih =>
    rintro ⟨x, hx, hlen⟩
    rcases List.mem_cons.mp hx with rfl | hx2
    · simp [emitRows, rowOf_of_short x hlen]
    · cases hro : rowOf r with
      | none => simp [emitRows, hro]
      | some line => simp [emitRows, hro, ih ⟨x, hx2, hlen⟩]

/-- C1: for every input that parses as an array whose records each have at
least two elements (including the empty array), the first line written to
standard output is exactly `article;resistance`. -/
theorem header_line_first (data : List (List JVal))
    (h : ∀ r ∈ data, 2 ≤ r.length) :
    (mainRun (.ok data)).1.head? = some "article;resistance" := by
  simp [mainRun, withBlock, emitRows_all_good data h]

/-- Witness for C1 at the concrete input `[["R1", "10k"], ["R2", "220"]]`. -/
theorem header_line_first_witness :
    (mainRun (.ok [[JVal.jstr "R1", JVal.jstr "10k"],
                   [JVal.jstr "R2", JVal.jstr "220"]])).1.head?
      = some "article;resistance" :=
  header_line_first _ (by decide)

/-- C2: for an input array of length N with every record of at least two
elements, exactly N+1 lines are written: the header and one row per
record. -/
theorem line_count (data : List (List JVal))
    (h : ∀ r ∈ data, 2 ≤ r.length) :
    (mainRun (.ok data)).1.length = data.length + 1 := by
  simp [mainRun, withBlock, emitRows_all_good data h]

/-- Witness for C2 at a concrete three-record input. -/
theorem line_count_witness :
    (mainRun (.ok [[JVal.jstr "R1", JVal.jint 100],
                   [JVal.jstr "R2", JVal.jint 220],
                   [JVal.jstr "R3", JVal.jint 330]])).1.length = 3 + 1 :=
  line_count _ (by decide)

/-- C3: rows are emitted in input order with no reordering: for every index
i, the line at position i+1 of the output is the row derived from the i-th
input record. -/
theorem rows_in_input_order (data : List (List JVal))
    (h : ∀ r ∈ data, 2 ≤ r.length) (i : Nat) :
    (mainRun (.ok data)).1[i + 1]?
      = data[i]?.map (fun r => (rowOf r).getD "") := by
  simp [mainRun, withBlock, emitRows_all_good data h, List.getElem?_map]

/-- Witness for C3: at a concrete two-record input, row 0 of the output body
comes from record 0. -/
theorem rows_in_input_order_witness :
    (mainRun (.ok [[JVal.jstr "R1", JVal.jstr "10k"],
                   [JVal.jstr "R2", JVal.jstr "220"]])).1[0 + 1]?
      = ([[JVal.jstr "R1", JVal.jstr "10k"],
          [JVal.jstr "R2", JVal.jstr "220"]] : List (List JVal))[0]?.map
          (fun r => (rowOf r).getD "") :=
  rows_in_input_order _ (by decide) 0

/-- C4: a record with more than two elements yields a row built from its
first two elements only, separated by a single `;`; the elements past the
second have no effect, so the row equals the one for the truncated
record. -/
theorem extra_elements_ignored (a b : JVal) (rest : List JVal) :
    rowOf (a :: b :: rest) = some (render a ++ ";" ++ render b) ∧
    rowOf (a :: b :: rest) = rowOf [a, b] := by
  exact ⟨rfl, rfl⟩

/-- C5: an input array containing some record with fewer than two elements
terminates with an uncaught `IndexError`, not a deliberate exit. -/
theorem short_record_uncaught (data : List (List JVal))
    (h : ∃ r ∈ data, r.length < 2) :
    (mainRun (.ok data)).2 = Outcome.uncaught PyError.indexError := by
  simp [mainRun, withBlock, emitRows_fails_of_bad data h]

/-- Witness for C5 at the concrete input `[["OnlyOneField"]]`. -/
theorem short_record_uncaught_witness :
    (mainRun (.ok [[JVal.jstr "OnlyOneField"]])).2
      = Outcome.uncaught PyError.indexError :=
  short_record_uncaught _ (by decide)

/-- C6: an open failure or a JSON parse failure propagates uncaught, the
process status is non-zero, and no lines at all (not even the header) are
written to standard output. -/
theorem load_failure_no_output :
    (mainRun .ioError).1 = [] ∧
    (mainRun .parseError).1 = [] ∧
    (mainRun .ioError).2 = Outcome.uncaught PyError.ioError ∧
    (mainRun .parseError).2 = Outcome.uncaught PyError.jsonDecodeError ∧
    statusOf (mainRun .ioError).2 ≠ 0 ∧
    statusOf (mainRun .parseError).2 ≠ 0 := by
  refine ⟨rfl, rfl, rfl, rfl, ?_, ?_⟩ <;> decide

/-- C7: whenever the emission loop completes over the whole parsed sequence
without an uncaught failure, the process terminates via `sys.exit(0)` with
success status 0. -/
theorem loop_completion_exits_zero (data : List (List JVal))
    (h : (emitRows data).2 = true) :
    (mainRun (.ok data)).2 = Outcome.exited 0 ∧
    statusOf (mainRun (.ok data)).2 = 0 := by
  constructor <;> simp [mainRun, withBlock, statusOf, h]

/-- Witness for C7 at the empty-array input, whose loop trivially
completes. -/
theorem loop_completion_exits_zero_witness :
    (mainRun (.ok ([] : List (List JVal)))).2 = Outcome.exited 0 ∧
    statusOf (mainRun (.ok ([] : List (List JVal)))).2 = 0 :=
  loop_completion_exits_zero [] (by decide)

/-- C8: the explicit `sys.exit(-1)` is unreachable: on every execution the
outcome is either the success exit with code 0 or an uncaught exception,
never the exit with code -1. -/
theorem exit_neg_one_unreachable (load : LoadResult) :
    (mainRun load).2 ≠ Outcome.exited (-1) ∧
    ((mainRun load).2 = Outcome.exited 0 ∨
      ∃ e, (mainRun load).2 = Outcome.uncaught e) := by
  cases load with
  | ioError => exact ⟨by decide, Or.inr ⟨PyError.ioError, rfl⟩⟩
  | parseError => exact ⟨by decide, Or.inr ⟨PyError.jsonDecodeError, rfl⟩⟩
  | ok data =>
    cases hb : (emitRows data).2 with
    | true =>
      constructor
      · simp [mainRun, withBlock, hb]
      · exact Or.inl (by simp [mainRun, withBlock, hb])
    | false =>
      constructor
      · simp [mainRun, withBlock, hb]
      · exact Or.inr ⟨PyError.indexError, by simp [mainRun, withBlock, hb]⟩

/-- C9: the first two elements of a record are rendered in their natural
textual form with no added quoting or escaping — a string renders as its own
characters even when it contains the `;` delimiter, and an integer renders
in decimal — and the row is exactly the two renderings joined by a single
`;`. -/
theorem scalars_rendered_plainly :
    (∀ s : String, render (JVal.jstr s) = s) ∧
    (∀ n : Int, render (JVal.jint n) = toString n) ∧
    (∀ (a b : JVal) (rest : List JVal),
      rowOf (a :: b :: rest) = some (render a ++ ";" ++ render b)) :=
  ⟨fun _ => rfl, fun _ => rfl, fun _ _ _ => rfl⟩

/-- C10: when the first offending record sits after a well-formed prefix,
the output at the abrupt termination is exactly the header plus the rows
of the prefix, with no partial row for the offending record, and the
termination is the uncaught `IndexError`. -/
theorem failure_output_is_good_prefix (pre : List (List JVal))
    (bad : List JVal) (rest : List (List JVal))
    (hpre : ∀ r ∈ pre, 2 ≤ r.length) (hbad : bad.length < 2) :
    (mainRun (.ok (pre ++ bad :: rest))).1
      = "article;resistance" :: pre.map (fun r => (rowOf r).getD "") ∧
    (mainRun (.ok (pre ++ bad :: rest))).2
      = Outcome.uncaught PyError.indexError := by
  constructor <;>
    simp [mainRun, withBlock, emitRows_stops_at_bad pre bad rest hbad hpre]

/-- Witness for C10 at `[["R1", "10k"], ["OnlyOneField"], ["R2", "220"]]`:
the output is the header and the row for the first record only. -/
theorem failure_output_is_good_prefix_witness :
    (mainRun (.ok ([[JVal.jstr "R1", JVal.jstr "10k"]]
        ++ [JVal.jstr "OnlyOneField"] :: [[JVal.jstr "R2", JVal.jstr "220"]]))).1
      = "article;resistance"
          :: ([[JVal.jstr "R1", JVal.jstr "10k"]] : List (List JVal)).map
               (fun r => (rowOf r).getD "") ∧
    (mainRun (.ok ([[JVal.jstr "R1", JVal.jstr "10k"]]
        ++ [JVal.jstr "OnlyOneField"] :: [[JVal.jstr "R2", JVal.jstr "220"]]))).2
      = Outcome.uncaught PyError.indexError :=
  failure_output_is_good_prefix _ _ _ (by decide) (by decide)

end JsonConverter
